import Mathlib

set_option linter.unusedVariables false
set_option maxRecDepth 100000

/-
Verification of the quick-scaffold project generator (src/cli.py).

The generator is a pure data-to-filesystem transform: a fixed template
catalog (`get_templates`, cli.py:13-36) and a generation routine
(`create_project_structure`, cli.py:39-74) that, given a project name, a
template id and three boolean flags, writes a fixed tree of files.  The
embedding below models the filesystem as explicit state (the set of existing
directories plus the written files with their contents), each per-template
builder as a pure function returning the directories and (path, content)
pairs it writes, and Jinja2 rendering as literal replacement of the exact
placeholder text used by every template string in the source.
-/

-- Paths are lists of components, as pathlib decomposes them.
abbrev FsPath := List String

-- Splitting a relative POSIX path string on the slash character, keeping the
-- raw chunks (structural recursion so that proofs can evaluate it).
def splitSlashAux : List Char → List Char → List (List Char)
  | [], acc => [acc.reverse]
  | c :: cs, acc =>
    if c = '/' then acc.reverse :: splitSlashAux cs []
    else splitSlashAux cs (c :: acc)

-- Components of a relative path string as Python pathlib computes them:
-- split on the slash and drop empty components (`Path("a//b/").parts`).
def pathComponents (s : String) : List String :=
  ((splitSlashAux s.data []).map (fun cs => String.mk cs)).filter (fun c => c ≠ "")

-- Python `Path.name`: the final path component (empty when there is none).
def pathName (s : String) : String :=
  (pathComponents s).getLastD ""

-- One left-to-right pass replacing every occurrence of `pat` by `rep`,
-- driven by fuel so the recursion is structural; with fuel ≥ length of the
-- remaining input the pass always completes.
def replaceFrom (pat rep : List Char) : Nat → List Char → List Char
  | _, [] => []
  | 0, cs => cs
  | fuel+1, c :: cs =>
    if pat.isPrefixOf (c :: cs) then rep ++ replaceFrom pat rep fuel ((c :: cs).drop pat.length)
    else c :: replaceFrom pat rep fuel cs

-- The placeholder text: every template string in cli.py writes its variable
-- as this exact eighteen-character sequence, so Jinja2 rendering with
-- `project_name=...` coincides with literal replacement of it.
def placeholderText : String := "\x7b\x7b project_name \x7d\x7d"

-- Jinja2 `Template(s).render(project_name=nm)` specialised to the template
-- strings of cli.py: replace each occurrence of the placeholder with `nm`.
def renderTemplate (s nm : String) : String :=
  String.mk (replaceFrom placeholderText.data nm.data s.data.length s.data)

-- Substring test (used to state facts about rendered contents).
def containsFrom (pat : List Char) : List Char → Bool
  | [] => pat.isEmpty
  | c :: cs => pat.isPrefixOf (c :: cs) || containsFrom pat cs

def containsSub (s pat : String) : Bool := containsFrom pat.data s.data

-- The single error kind of the generator: the target directory already
-- exists (cli.py:43-45, reported on stderr followed by `sys.exit(1)`).
inductive GenError where
  | targetExists
deriving DecidableEq

-- The model filesystem: the directories that exist and the files that exist
-- together with their contents.
structure FileSystem where
  dirs : List FsPath
  files : List (FsPath × String)
deriving DecidableEq

def FileSystem.empty : FileSystem := ⟨[], []⟩

-- Python `Path.exists()` on the model: the path is a known directory or file.
def FileSystem.pathExists (fs : FileSystem) (p : FsPath) : Bool :=
  decide (p ∈ fs.dirs ∨ p ∈ fs.files.map Prod.fst)

-- `Path.mkdir(parents=True)`: the directory together with every ancestor.
def parentsAndSelf (p : FsPath) : List FsPath :=
  (List.range p.length).map (fun i => p.take (i + 1))

-- What one per-template builder writes, relative to the project directory:
-- the extra directories it makes and the (path, content) pairs it writes,
-- in source order.
structure BuildOutput where
  dirs : List FsPath
  files : List (FsPath × String)
deriving DecidableEq

-- The template catalog entry: display name and description (cli.py:13-36).
structure TemplateInfo where
  name : String
  description : String
deriving DecidableEq

-- get_templates (cli.py:13-36), as an ordered association list.
def get_templates : List (String × TemplateInfo) :=
  [ ("react", ⟨"React App", "React application with Vite"⟩)
  , ("python-cli", ⟨"Python CLI", "Python CLI tool with Click"⟩)
  , ("fastapi", ⟨"FastAPI", "FastAPI web application"⟩)
  , ("nextjs", ⟨"Next.js", "Next.js application"⟩)
  , ("node-api", ⟨"Node.js API", "Node.js Express API"⟩) ]

def templateIds : List String := get_templates.map Prod.fst

-- ---------------------------------------------------------------------------
-- Template string constants, byte for byte the values the Python source
-- writes (braces, apostrophes and backticks appear as \xNN escapes).
-- ---------------------------------------------------------------------------

-- cli.py:80 (rendered)
def react_package_json : String :=
  "\x7b\n  \"name\": \"\x7b\x7b project_name \x7d\x7d\",\n  \"version\": \"0.1.0\",\n  \"private\": true,\n  \"type\": \"module\",\n  \"scripts\": \x7b\n    \"dev\": \"vite\",\n    \"build\": \"vite build\",\n    \"preview\": \"vite preview\"\n  \x7d,\n  \"dependencies\": \x7b\n    \"react\": \"^18.2.0\",\n    \"react-dom\": \"^18.2.0\"\n  \x7d,\n  \"devDependencies\": \x7b\n    \"@types/react\": \"^18.2.0\",\n    \"@types/react-dom\": \"^18.2.0\",\n    \"@vitejs/plugin-react\": \"^4.0.0\",\n    \"vite\": \"^4.4.0\"\n  \x7d\n\x7d\n"

-- cli.py:105 (verbatim)
def vite_config : String :=
  "import \x7b defineConfig \x7d from \x27vite\x27\nimport react from \x27@vitejs/plugin-react\x27\n\nexport default defineConfig(\x7b\n  plugins: [react()],\n\x7d)\n"

-- cli.py:115 (rendered)
def index_html : String :=
  "<!DOCTYPE html>\n<html lang=\"en\">\n  <head>\n    <meta charset=\"UTF-8\" />\n    <meta name=\"viewport\" content=\"width=device-width, initial-scale=1.0\" />\n    <title>\x7b\x7b project_name \x7d\x7d</title>\n  </head>\n  <body>\n    <div id=\"root\"></div>\n    <script type=\"module\" src=\"/src/main.jsx\"></script>\n  </body>\n</html>\n"

-- cli.py:131 (verbatim)
def main_jsx : String :=
  "import React from \x27react\x27\nimport ReactDOM from \x27react-dom/client\x27\nimport App from \x27./App.jsx\x27\nimport \x27./index.css\x27\n\nReactDOM.createRoot(document.getElementById(\x27root\x27)).render(\n  <React.StrictMode>\n    <App />\n  </React.StrictMode>,\n)\n"

-- cli.py:145 (rendered)
def app_jsx : String :=
  "import \x7b useState \x7d from \x27react\x27\nimport \x27./App.css\x27\n\nfunction App() \x7b\n  const [count, setCount] = useState(0)\n\n  return (\n    <div className=\"App\">\n      <h1>\x7b\x7b project_name \x7d\x7d</h1>\n      <div className=\"card\">\n        <button onClick=\x7b() => setCount((count) => count + 1)\x7d>\n          count is \x7bcount\x7d\n        </button>\n      </div>\n    </div>\n  )\n\x7d\n\nexport default App\n"

-- cli.py:168 (verbatim)
def react_index_css : String :=
  "* \x7b\n  margin: 0;\n  padding: 0;\n  box-sizing: border-box;\n\x7d\n\nbody \x7b\n  font-family: -apple-system, BlinkMacSystemFont, \x27Segoe UI\x27, \x27Roboto\x27, sans-serif;\n\x7d\n"

-- cli.py:180 (verbatim)
def react_app_css : String :=
  ".App \x7b\n  text-align: center;\n  padding: 2rem;\n\x7d\n"

-- cli.py:187 (verbatim)
def react_gitignore : String :=
  "# Dependencies\nnode_modules/\ndist/\n\n# Build\nbuild/\n.vite/\n\n# Environment\n.env\n.env.local\n\n# IDE\n.vscode/\n.idea/\n\n# OS\n.DS_Store\n"

-- cli.py:209 (rendered; the backtick fences carry a literal backslash in the
-- Python source, which is preserved in the written file)
def react_readme : String :=
  "# \x7b\x7b project_name \x7d\x7d\n\nA React application built with Vite.\n\n## Getting Started\n\n\\\x60\\\x60\\\x60bash\nnpm install\nnpm run dev\n\\\x60\\\x60\\\x60\n\n## Build\n\n\\\x60\\\x60\\\x60bash\nnpm run build\n\\\x60\\\x60\\\x60\n"

-- cli.py:240 (rendered)
def python_cli_main_py : String :=
  "#!/usr/bin/env python3\n\"\"\"\x7b\x7b project_name \x7d\x7d - CLI tool.\"\"\"\n\nimport click\n\n\n@click.command()\n@click.option(\x27--name\x27, default=\x27World\x27, help=\x27Name to greet\x27)\ndef main(name):\n    \"\"\"Simple CLI tool.\"\"\"\n    click.echo(f\x27Hello, \x7bname\x7d!\x27)\n\n\nif __name__ == \x27__main__\x27:\n    main()\n"

-- cli.py:259, value of the f-string `f'\"\"\"{{ project_name }} package.\"\"\"\n'`:
-- Python f-string processing collapses each doubled brace to a single brace
-- and substitutes nothing, so the file is written with this constant.
def python_cli_init_py : String :=
  "\"\"\"\x7b project_name \x7d package.\"\"\"\n"

-- The characters of the cli.py:259 literal as they appear in the source,
-- before f-string processing: the doubled-brace placeholder.  Rendering this
-- text is what the surrounding code does for every other placeholder file.
def python_cli_init_py_source : String :=
  "\"\"\"\x7b\x7b project_name \x7d\x7d package.\"\"\"\n"

-- cli.py:263 (verbatim)
def python_cli_test_main : String :=
  "import pytest\nfrom src.main import main\n\n\ndef test_main():\n    # Add your tests here\n    assert True\n"

-- cli.py:275 (verbatim)
def python_cli_gitignore : String :=
  "# Python\n__pycache__/\n*.py[cod]\n*.so\n.Python\nbuild/\ndist/\n*.egg-info/\n.venv/\nvenv/\n\n# IDE\n.vscode/\n.idea/\n\n# OS\n.DS_Store\n"

-- cli.py:296 (rendered)
def python_cli_readme : String :=
  "# \x7b\x7b project_name \x7d\x7d\n\nA Python CLI tool built with Click.\n\n## Installation\n\n\\\x60\\\x60\\\x60bash\npip install -r requirements.txt\n\\\x60\\\x60\\\x60\n\n## Usage\n\n\\\x60\\\x60\\\x60bash\npython -m src.main --name \"Your Name\"\n\\\x60\\\x60\\\x60\n"

-- cli.py:326 (rendered)
def fastapi_main_py : String :=
  "from fastapi import FastAPI\n\napp = FastAPI(title=\"\x7b\x7b project_name \x7d\x7d\")\n\n\n@app.get(\"/\")\ndef read_root():\n    return \x7b\"message\": \"Hello, World!\"\x7d\n\n\n@app.get(\"/health\")\ndef health_check():\n    return \x7b\"status\": \"healthy\"\x7d\n"

-- cli.py:347 (verbatim)
def fastapi_test_main : String :=
  "from fastapi.testclient import TestClient\nfrom src.main import app\n\nclient = TestClient(app)\n\n\ndef test_read_root():\n    response = client.get(\"/\")\n    assert response.status_code == 200\n    assert \"message\" in response.json()\n\n\ndef test_health_check():\n    response = client.get(\"/health\")\n    assert response.status_code == 200\n    assert response.json()[\"status\"] == \"healthy\"\n"

-- cli.py:368 (verbatim)
def fastapi_gitignore : String :=
  "# Python\n__pycache__/\n*.py[cod]\n*.so\n.Python\nbuild/\ndist/\n*.egg-info/\n.venv/\nvenv/\n\n# IDE\n.vscode/\n.idea/\n\n# OS\n.DS_Store\n"

-- cli.py:389 (rendered)
def fastapi_readme : String :=
  "# \x7b\x7b project_name \x7d\x7d\n\nA FastAPI web application.\n\n## Installation\n\n\\\x60\\\x60\\\x60bash\npip install -r requirements.txt\n\\\x60\\\x60\\\x60\n\n## Usage\n\n\\\x60\\\x60\\\x60bash\nuvicorn src.main:app --reload\n\\\x60\\\x60\\\x60\n\nVisit http://localhost:8000/docs for API documentation.\n"

-- cli.py:411 (verbatim)
def fastapi_dockerfile : String :=
  "FROM python:3.11-slim\n\nWORKDIR /app\n\nCOPY requirements.txt .\nRUN pip install --no-cache-dir -r requirements.txt\n\nCOPY . .\n\nCMD [\"uvicorn\", \"src.main:app\", \"--host\", \"0.0.0.0\", \"--port\", \"8000\"]\n"

-- cli.py:425 (verbatim)
def fastapi_dockerignore : String :=
  "__pycache__\n*.pyc\n.venv\nvenv\n.git\n.gitignore\nREADME.md\n"

-- cli.py:436 (verbatim)
def fastapi_docker_compose : String :=
  "version: \x273.8\x27\n\nservices:\n  app:\n    build: .\n    ports:\n      - \"8000:8000\"\n    volumes:\n      - .:/app\n"

-- cli.py:452 (rendered)
def nextjs_package_json : String :=
  "\x7b\n  \"name\": \"\x7b\x7b project_name \x7d\x7d\",\n  \"version\": \"0.1.0\",\n  \"private\": true,\n  \"scripts\": \x7b\n    \"dev\": \"next dev\",\n    \"build\": \"next build\",\n    \"start\": \"next start\",\n    \"lint\": \"next lint\"\n  \x7d,\n  \"dependencies\": \x7b\n    \"react\": \"^18.2.0\",\n    \"react-dom\": \"^18.2.0\",\n    \"next\": \"^13.5.0\"\n  \x7d,\n  \"devDependencies\": \x7b\n    \"@types/node\": \"^20.0.0\",\n    \"@types/react\": \"^18.2.0\",\n    \"@types/react-dom\": \"^18.2.0\",\n    \"typescript\": \"^5.0.0\"\n  \x7d\n\x7d\n"

-- cli.py:478 (verbatim)
def nextjs_next_config : String :=
  "/** @type \x7bimport(\x27next\x27).NextConfig\x7d */\nconst nextConfig = \x7b\n  reactStrictMode: true,\n\x7d\n\nmodule.exports = nextConfig\n"

-- cli.py:487 (verbatim)
def nextjs_tsconfig : String :=
  "\x7b\n  \"compilerOptions\": \x7b\n    \"target\": \"es5\",\n    \"lib\": [\"dom\", \"dom.iterable\", \"esnext\"],\n    \"allowJs\": true,\n    \"skipLibCheck\": true,\n    \"strict\": true,\n    \"forceConsistentCasingInFileNames\": true,\n    \"noEmit\": true,\n    \"esModuleInterop\": true,\n    \"module\": \"esnext\",\n    \"moduleResolution\": \"bundler\",\n    \"resolveJsonModule\": true,\n    \"isolatedModules\": true,\n    \"jsx\": \"preserve\",\n    \"incremental\": true,\n    \"paths\": \x7b\n      \"@/*\": [\"./*\"]\n    \x7d\n  \x7d,\n  \"include\": [\"next-env.d.ts\", \"**/*.ts\", \"**/*.tsx\"],\n  \"exclude\": [\"node_modules\"]\n\x7d\n"

-- cli.py:514 (rendered)
def nextjs_layout_tsx : String :=
  "export const metadata = \x7b\n  title: \x27\x7b\x7b project_name \x7d\x7d\x27,\n  description: \x27Generated by quick-scaffold\x27,\n\x7d\n\nexport default function RootLayout(\x7b\n  children,\n\x7d: \x7b\n  children: React.ReactNode\n\x7d) \x7b\n  return (\n    <html lang=\"en\">\n      <body>\x7bchildren\x7d</body>\n    </html>\n  )\n\x7d\n"

-- cli.py:534 (rendered)
def nextjs_page_tsx : String :=
  "export default function Home() \x7b\n  return (\n    <main>\n      <h1>\x7b\x7b project_name \x7d\x7d</h1>\n      <p>Welcome to your Next.js app!</p>\n    </main>\n  )\n\x7d\n"

-- cli.py:546 (verbatim)
def nextjs_globals_css : String :=
  "* \x7b\n  margin: 0;\n  padding: 0;\n  box-sizing: border-box;\n\x7d\n\nbody \x7b\n  font-family: -apple-system, BlinkMacSystemFont, \x27Segoe UI\x27, \x27Roboto\x27, sans-serif;\n\x7d\n"

-- cli.py:558 (verbatim)
def nextjs_gitignore : String :=
  "# Dependencies\nnode_modules/\n.next/\nout/\n\n# Environment\n.env\n.env.local\n\n# IDE\n.vscode/\n.idea/\n\n# OS\n.DS_Store\n"

-- cli.py:577 (rendered)
def nextjs_readme : String :=
  "# \x7b\x7b project_name \x7d\x7d\n\nA Next.js application.\n\n## Getting Started\n\n\\\x60\\\x60\\\x60bash\nnpm install\nnpm run dev\n\\\x60\\\x60\\\x60\n\nOpen [http://localhost:3000](http://localhost:3000) in your browser.\n"

-- cli.py:596 (rendered)
def node_api_package_json : String :=
  "\x7b\n  \"name\": \"\x7b\x7b project_name \x7d\x7d\",\n  \"version\": \"0.1.0\",\n  \"type\": \"module\",\n  \"main\": \"src/index.js\",\n  \"scripts\": \x7b\n    \"dev\": \"node --watch src/index.js\",\n    \"start\": \"node src/index.js\"\n  \x7d,\n  \"dependencies\": \x7b\n    \"express\": \"^4.18.0\"\n  \x7d,\n  \"devDependencies\": \x7b\x7d\n\x7d\n"

-- cli.py:614 (verbatim)
def node_api_index_js : String :=
  "import express from \x27express\x27;\n\nconst app = express();\nconst PORT = process.env.PORT || 3000;\n\napp.use(express.json());\n\napp.get(\x27/\x27, (req, res) => \x7b\n  res.json(\x7b message: \x27Hello, World!\x27 \x7d);\n\x7d);\n\napp.get(\x27/health\x27, (req, res) => \x7b\n  res.json(\x7b status: \x27healthy\x27 \x7d);\n\x7d);\n\napp.listen(PORT, () => \x7b\n  console.log(\x60Server running on http://localhost:$\x7bPORT\x7d\x60);\n\x7d);\n"

-- cli.py:636 (verbatim)
def node_api_gitignore : String :=
  "# Dependencies\nnode_modules/\n\n# Environment\n.env\n.env.local\n\n# IDE\n.vscode/\n.idea/\n\n# OS\n.DS_Store\n"

-- cli.py:653 (rendered)
def node_api_readme : String :=
  "# \x7b\x7b project_name \x7d\x7d\n\nA Node.js Express API.\n\n## Installation\n\n\\\x60\\\x60\\\x60bash\nnpm install\n\\\x60\\\x60\\\x60\n\n## Usage\n\n\\\x60\\\x60\\\x60bash\nnpm run dev\n\\\x60\\\x60\\\x60\n\nServer will run on http://localhost:3000\n"

-- ---------------------------------------------------------------------------
-- Per-template builders (cli.py:77-671), writing files in source order.
-- ---------------------------------------------------------------------------

-- create_react_project (cli.py:77-226); the flag arguments are never read.
def create_react_project (nm : String) (docker testing linting : Bool) : BuildOutput :=
  { dirs := []
  , files :=
    [ (["package.json"], renderTemplate react_package_json nm)
    , (["vite.config.js"], vite_config)
    , (["index.html"], renderTemplate index_html nm)
    , (["src", "main.jsx"], main_jsx)
    , (["src", "App.jsx"], renderTemplate app_jsx nm)
    , (["src", "index.css"], react_index_css)
    , (["src", "App.css"], react_app_css)
    , ([".gitignore"], react_gitignore)
    , (["README.md"], renderTemplate react_readme nm) ] }

-- The requirements list of create_python_cli_project (cli.py:232-236).
def pythonCliRequirements (testing linting : Bool) : List String :=
  ["click>=8.1.0"]
    ++ (if testing then ["pytest>=7.0.0"] else [])
    ++ (if linting then ["ruff>=0.1.0", "black>=23.0.0"] else [])

-- create_python_cli_project (cli.py:229-312).
def create_python_cli_project (nm : String) (docker testing linting : Bool) : BuildOutput :=
  { dirs := []
  , files :=
    [ (["requirements.txt"], String.intercalate "\n" (pythonCliRequirements testing linting) ++ "\n")
    , (["src", "main.py"], renderTemplate python_cli_main_py nm)
    , (["src", "__init__.py"], python_cli_init_py) ]
    ++ (if testing then
        [ (["tests", "test_main.py"], python_cli_test_main)
        , (["tests", "__init__.py"], "") ] else [])
    ++ [ ([".gitignore"], python_cli_gitignore)
       , (["README.md"], renderTemplate python_cli_readme nm) ] }

-- The requirements list of create_fastapi_project (cli.py:318-322).
def fastapiRequirements (testing linting : Bool) : List String :=
  ["fastapi>=0.100.0", "uvicorn[standard]>=0.23.0"]
    ++ (if testing then ["pytest>=7.0.0", "httpx>=0.24.0"] else [])
    ++ (if linting then ["ruff>=0.1.0", "black>=23.0.0"] else [])

-- create_fastapi_project (cli.py:315-446).
def create_fastapi_project (nm : String) (docker testing linting : Bool) : BuildOutput :=
  { dirs := []
  , files :=
    [ (["requirements.txt"], String.intercalate "\n" (fastapiRequirements testing linting) ++ "\n")
    , (["src", "main.py"], renderTemplate fastapi_main_py nm)
    , (["src", "__init__.py"], "") ]
    ++ (if testing then
        [ (["tests", "test_main.py"], fastapi_test_main)
        , (["tests", "__init__.py"], "") ] else [])
    ++ [ ([".gitignore"], fastapi_gitignore)
       , (["README.md"], renderTemplate fastapi_readme nm) ]
    ++ (if docker then
        [ (["Dockerfile"], fastapi_dockerfile)
        , ([".dockerignore"], fastapi_dockerignore) ] else [])
    ++ (if docker then [ (["docker-compose.yml"], fastapi_docker_compose) ] else []) }

-- create_nextjs_project (cli.py:449-590); the flag arguments are never read.
def create_nextjs_project (nm : String) (docker testing linting : Bool) : BuildOutput :=
  { dirs := [["app"]]
  , files :=
    [ (["package.json"], renderTemplate nextjs_package_json nm)
    , (["next.config.js"], nextjs_next_config)
    , (["tsconfig.json"], nextjs_tsconfig)
    , (["app", "layout.tsx"], renderTemplate nextjs_layout_tsx nm)
    , (["app", "page.tsx"], renderTemplate nextjs_page_tsx nm)
    , (["app", "globals.css"], nextjs_globals_css)
    , ([".gitignore"], nextjs_gitignore)
    , (["README.md"], renderTemplate nextjs_readme nm) ] }

-- create_node_api_project (cli.py:593-671); the flag arguments are never read.
def create_node_api_project (nm : String) (docker testing linting : Bool) : BuildOutput :=
  { dirs := []
  , files :=
    [ (["package.json"], renderTemplate node_api_package_json nm)
    , (["src", "index.js"], node_api_index_js)
    , ([".gitignore"], node_api_gitignore)
    , (["README.md"], renderTemplate node_api_readme nm) ] }

-- The template dispatch of create_project_structure (cli.py:54-63): each
-- known id runs its builder; any other id falls through every branch and
-- runs none.
def runBuilder (template nm : String) (docker testing linting : Bool) : BuildOutput :=
  if template = "react" then create_react_project nm docker testing linting
  else if template = "python-cli" then create_python_cli_project nm docker testing linting
  else if template = "fastapi" then create_fastapi_project nm docker testing linting
  else if template = "nextjs" then create_nextjs_project nm docker testing linting
  else if template = "node-api" then create_node_api_project nm docker testing linting
  else { dirs := [], files := [] }

-- create_project_structure (cli.py:39-74) over the model filesystem.  When
-- the target exists the function reports the error and exits before any
-- mutation (the filesystem is returned unchanged); otherwise it makes the
-- project directory with its parents, the fixed src/ and tests/
-- subdirectories, and the dispatched builder's directories and files, every
-- builder path prefixed by the project path and every rendering using
-- `path.name`, the final component.
def create_project_structure (fs : FileSystem) (project_name template : String)
    (docker testing linting : Bool) : FileSystem × Option GenError :=
  let projPath := pathComponents project_name
  if fs.pathExists projPath then
    (fs, some GenError.targetExists)
  else
    let out := runBuilder template (pathName project_name) docker testing linting
    ({ dirs := fs.dirs ++ parentsAndSelf projPath
               ++ [projPath ++ ["src"], projPath ++ ["tests"]]
               ++ out.dirs.map (fun d => projPath ++ d)
     , files := fs.files ++ out.files.map (fun f => (projPath ++ f.1, f.2)) }, none)

-- The paths of all files on the filesystem, in write order.
def generatedFilePaths (fs : FileSystem) : List FsPath :=
  fs.files.map Prod.fst

-- The content of the file at `p`, when present (first write wins, matching
-- the fact that the generator never writes the same path twice).
def writtenContent (fs : FileSystem) (p : FsPath) : Option String :=
  (fs.files.find? (fun f => f.1 == p)).map Prod.snd

-- ---------------------------------------------------------------------------
-- Helper lemmas shared by the claim theorems.
-- ---------------------------------------------------------------------------

theorem runBuilder_react (nm : String) (d te l : Bool) :
    runBuilder "react" nm d te l = create_react_project nm d te l := rfl

theorem runBuilder_python_cli (nm : String) (d te l : Bool) :
    runBuilder "python-cli" nm d te l = create_python_cli_project nm d te l := rfl

theorem runBuilder_fastapi (nm : String) (d te l : Bool) :
    runBuilder "fastapi" nm d te l = create_fastapi_project nm d te l := rfl

theorem runBuilder_nextjs (nm : String) (d te l : Bool) :
    runBuilder "nextjs" nm d te l = create_nextjs_project nm d te l := rfl

theorem runBuilder_node_api (nm : String) (d te l : Bool) :
    runBuilder "node-api" nm d te l = create_node_api_project nm d te l := rfl

theorem mem_templateIds (t : String) :
    t ∈ templateIds ↔
      t = "react" ∨ t = "python-cli" ∨ t = "fastapi" ∨ t = "nextjs" ∨ t = "node-api" := by
  simp [templateIds, get_templates]

theorem runBuilder_unknown (t nm : String) (d te l : Bool) (ht : t ∉ templateIds) :
    runBuilder t nm d te l = ⟨[], []⟩ := by
  rw [mem_templateIds] at ht
  push_neg at ht
  obtain ⟨h1, h2, h3, h4, h5⟩ := ht
  simp [runBuilder, h1, h2, h3, h4, h5]

theorem pathExists_empty (p : FsPath) : FileSystem.empty.pathExists p = false := by
  simp [FileSystem.empty, FileSystem.pathExists]

theorem generatedFilePaths_empty_fs (pn t : String) (d te l : Bool) :
    generatedFilePaths (create_project_structure FileSystem.empty pn t d te l).1
      = (runBuilder t (pathName pn) d te l).files.map (fun f => pathComponents pn ++ f.1) := by
  simp [create_project_structure, generatedFilePaths, FileSystem.empty, FileSystem.pathExists]

theorem mem_generatedFilePaths (pn t : String) (d te l : Bool) (x : FsPath) :
    (pathComponents pn ++ x) ∈ generatedFilePaths (create_project_structure FileSystem.empty pn t d te l).1
      ↔ x ∈ (runBuilder t (pathName pn) d te l).files.map Prod.fst := by
  rw [generatedFilePaths_empty_fs]
  simp [List.mem_map, List.append_cancel_left_eq]

theorem parentsAndSelf_singleton (a : String) : parentsAndSelf [a] = [[a]] := rfl

theorem runBuilder_paths_ignore_linting (t nm : String) (d te : Bool) :
    (runBuilder t nm d te true).files.map Prod.fst
      = (runBuilder t nm d te false).files.map Prod.fst := by
  by_cases h1 : t = "react"
  · simp [runBuilder, h1, create_react_project]
  by_cases h2 : t = "python-cli"
  · cases te <;> simp [runBuilder, h1, h2, create_python_cli_project]
  by_cases h3 : t = "fastapi"
  · cases d <;> cases te <;> simp [runBuilder, h1, h2, h3, create_fastapi_project]
  by_cases h4 : t = "nextjs"
  · simp [runBuilder, h1, h2, h3, h4, create_nextjs_project]
  by_cases h5 : t = "node-api"
  · simp [runBuilder, h1, h2, h3, h4, h5, create_node_api_project]
  simp [runBuilder, h1, h2, h3, h4, h5]

-- ---------------------------------------------------------------------------
-- Claim theorems.
-- ---------------------------------------------------------------------------

/-- Claim C1: when the path named by project_name already exists, generation
fails with the TargetExists error and the filesystem is returned unchanged —
the check precedes every directory creation and file write — for every
template id and every combination of the three flags (cli.py:43-45). -/
theorem C1_targetExists_no_mutation (fs : FileSystem) (pn t : String) (d te l : Bool)
    (h : fs.pathExists (pathComponents pn) = true) :
    create_project_structure fs pn t d te l = (fs, some GenError.targetExists) := by
  simp [create_project_structure, h]

/-- Witness for C1 at the concrete filesystem that already holds a `demo`
directory. -/
theorem C1_witness :
    (FileSystem.mk [["demo"]] []).pathExists (pathComponents "demo") = true ∧
    create_project_structure (FileSystem.mk [["demo"]] []) "demo" "react" false false false
      = (FileSystem.mk [["demo"]] [], some GenError.targetExists) :=
  ⟨by decide, C1_targetExists_no_mutation (FileSystem.mk [["demo"]] []) "demo" "react" false false false (by decide)⟩

/-- Claim C2 (code bug, cli.py:259): for project demo, the python-cli
builder writes src/__init__.py through a Python f-string instead of a Jinja2
render, so its doubled-brace placeholder collapses to the residue text
between braces and the project name is never substituted: the written
content is the constant python_cli_init_py, which does not contain "demo",
while rendering the characters of the source literal (as every sibling file
does) would have produced a docstring naming the project. -/
theorem C2_init_py_unsubstituted :
    writtenContent (create_project_structure FileSystem.empty "demo" "python-cli" false false false).1
        ["demo", "src", "__init__.py"] = some python_cli_init_py ∧
    containsSub python_cli_init_py "demo" = false ∧
    containsSub python_cli_init_py "\x7b project_name \x7d" = true ∧
    renderTemplate python_cli_init_py_source "demo" = "\"\"\"demo package.\"\"\"\n" :=
  ⟨by decide, by decide, by decide, by decide⟩

/-- Counterexample to claim C3 as stated: a call with the out-of-catalog
template id bogus does complete as a successful generation — no error, the
base directories created, no files written (cli.py:54-74 falls through every
dispatch branch and still reports success). -/
theorem C3_unknown_id_succeeds :
    (create_project_structure FileSystem.empty "proj" "bogus" false false false).2 = none ∧
    (create_project_structure FileSystem.empty "proj" "bogus" false false false).1.files = [] ∧
    (create_project_structure FileSystem.empty "proj" "bogus" false false false).1.dirs
      = [["proj"], ["proj", "src"], ["proj", "tests"]] := by
  refine ⟨by decide, by decide, by decide⟩

/-- Claim C3 as amended: generate dispatches on template_id, and a
template_id outside the catalog's 5 ids runs no builder — but such a call is
not fatal: it still creates the project directory with its src/ and tests/
subdirectories, writes no files, and completes as a successful generation. -/
theorem C3_unknown_id_completes (fs : FileSystem) (pn t : String) (d te l : Bool)
    (ht : t ∉ templateIds) (h : fs.pathExists (pathComponents pn) = false) :
    create_project_structure fs pn t d te l =
      ({ dirs := fs.dirs ++ parentsAndSelf (pathComponents pn)
                 ++ [pathComponents pn ++ ["src"], pathComponents pn ++ ["tests"]]
       , files := fs.files }, none) := by
  simp [create_project_structure, h, runBuilder_unknown t (pathName pn) d te l ht]

/-- Witness for the amended C3 at the concrete id bogus. -/
theorem C3_witness :
    ("bogus" ∉ templateIds) ∧
    create_project_structure FileSystem.empty "proj" "bogus" false false false =
      ({ dirs := FileSystem.empty.dirs ++ parentsAndSelf (pathComponents "proj")
                 ++ [pathComponents "proj" ++ ["src"], pathComponents "proj" ++ ["tests"]]
       , files := FileSystem.empty.files }, none) :=
  ⟨by decide, C3_unknown_id_completes FileSystem.empty "proj" "bogus" false false false (by decide) (by decide)⟩

/-- Claim C4: for every supported template id, with the target absent,
generate succeeds and the directory named project_name exists afterwards,
together with its fixed src/ and tests/ subdirectories (cli.py:47-51). -/
theorem C4_creates_project_dirs (fs : FileSystem) (pn t : String) (d te l : Bool)
    (ht : t ∈ templateIds) (hp : pathComponents pn = [pn])
    (h : fs.pathExists (pathComponents pn) = false) :
    (create_project_structure fs pn t d te l).2 = none ∧
    [pn] ∈ (create_project_structure fs pn t d te l).1.dirs ∧
    [pn, "src"] ∈ (create_project_structure fs pn t d te l).1.dirs ∧
    [pn, "tests"] ∈ (create_project_structure fs pn t d te l).1.dirs := by
  rw [hp] at h
  refine ⟨?_, ?_, ?_, ?_⟩ <;>
    simp [create_project_structure, h, hp, parentsAndSelf_singleton]

/-- Witness for C4 at the concrete project demo with the react template. -/
theorem C4_witness :
    ("react" ∈ templateIds) ∧ pathComponents "demo" = ["demo"] ∧
    FileSystem.empty.pathExists (pathComponents "demo") = false ∧
    ((create_project_structure FileSystem.empty "demo" "react" false false false).2 = none ∧
     ["demo"] ∈ (create_project_structure FileSystem.empty "demo" "react" false false false).1.dirs ∧
     ["demo", "src"] ∈ (create_project_structure FileSystem.empty "demo" "react" false false false).1.dirs ∧
     ["demo", "tests"] ∈ (create_project_structure FileSystem.empty "demo" "react" false false false).1.dirs) :=
  ⟨by decide, by decide, by decide,
   C4_creates_project_dirs FileSystem.empty "demo" "react" false false false (by decide) (by decide) (by decide)⟩

/-- Claim C5: for the fastapi template, the generated project contains
Dockerfile and docker-compose.yml exactly when docker is set, for every
project name and every setting of the other flags (cli.py:409-446). -/
theorem C5_fastapi_docker_iff (pn : String) (d te l : Bool) :
    ((pathComponents pn ++ ["Dockerfile"]) ∈
        generatedFilePaths (create_project_structure FileSystem.empty pn "fastapi" d te l).1 ↔ d = true) ∧
    ((pathComponents pn ++ ["docker-compose.yml"]) ∈
        generatedFilePaths (create_project_structure FileSystem.empty pn "fastapi" d te l).1 ↔ d = true) := by
  constructor <;>
    · rw [mem_generatedFilePaths, runBuilder_fastapi]
      cases d <;> cases te <;> simp [create_fastapi_project]

/-- Claim C6: for the python-cli template with testing set, the generated
project contains tests/test_main.py, src/main.py, requirements.txt,
README.md and .gitignore; with testing unset, tests/test_main.py is not
generated (cli.py:229-312). -/
theorem C6_python_cli_testing_files (pn : String) (d l : Bool) :
    (pathComponents pn ++ ["tests", "test_main.py"]) ∈
        generatedFilePaths (create_project_structure FileSystem.empty pn "python-cli" d true l).1 ∧
    (pathComponents pn ++ ["src", "main.py"]) ∈
        generatedFilePaths (create_project_structure FileSystem.empty pn "python-cli" d true l).1 ∧
    (pathComponents pn ++ ["requirements.txt"]) ∈
        generatedFilePaths (create_project_structure FileSystem.empty pn "python-cli" d true l).1 ∧
    (pathComponents pn ++ ["README.md"]) ∈
        generatedFilePaths (create_project_structure FileSystem.empty pn "python-cli" d true l).1 ∧
    (pathComponents pn ++ [".gitignore"]) ∈
        generatedFilePaths (create_project_structure FileSystem.empty pn "python-cli" d true l).1 ∧
    (pathComponents pn ++ ["tests", "test_main.py"]) ∉
        generatedFilePaths (create_project_structure FileSystem.empty pn "python-cli" d false l).1 := by
  refine ⟨?_, ?_, ?_, ?_, ?_, ?_⟩ <;>
    · rw [mem_generatedFilePaths, runBuilder_python_cli]
      simp [create_python_cli_project]

/-- Claim C7: the template catalog is the fixed ordered mapping with exactly
the 5 ids react, python-cli, fastapi, nextjs, node-api; get_templates is a
constant of the embedding, so the result is the same on every call
(cli.py:13-36). -/
theorem C7_catalog_fixed :
    get_templates.map Prod.fst = ["react", "python-cli", "fastapi", "nextjs", "node-api"] ∧
    (get_templates.map Prod.fst).Nodup ∧
    get_templates.length = 5 := by
  refine ⟨by decide, by decide, by decide⟩

/-- Counterexample to claim C8 as stated: for every template of the catalog
and every setting of the other two flags (project demo), generating with
linting set yields exactly the same file paths as generating with linting
unset — no template has a file whose presence the linting flag toggles. -/
theorem C8_linting_no_file_toggle :
    (templateIds.all (fun t => [false, true].all (fun d => [false, true].all (fun te =>
      generatedFilePaths (create_project_structure FileSystem.empty "demo" t d te true).1
        == generatedFilePaths (create_project_structure FileSystem.empty "demo" t d te false).1)))) = true := by
  decide

/-- Claim C8 as amended: docker and testing conditionally include extra
files (Dockerfile for fastapi, tests/test_main.py for python-cli), but
linting never changes the set of generated file paths for any template or
flag setting — it only alters the content of requirements.txt
(cli.py:232-236, 318-322). -/
theorem C8_flag_file_inclusion :
    (∀ pn t : String, ∀ d te : Bool,
        generatedFilePaths (create_project_structure FileSystem.empty pn t d te true).1
          = generatedFilePaths (create_project_structure FileSystem.empty pn t d te false).1) ∧
    (pathComponents "demo" ++ ["Dockerfile"]) ∈
        generatedFilePaths (create_project_structure FileSystem.empty "demo" "fastapi" true false false).1 ∧
    (pathComponents "demo" ++ ["Dockerfile"]) ∉
        generatedFilePaths (create_project_structure FileSystem.empty "demo" "fastapi" false false false).1 ∧
    (pathComponents "demo" ++ ["tests", "test_main.py"]) ∈
        generatedFilePaths (create_project_structure FileSystem.empty "demo" "python-cli" false true false).1 ∧
    (pathComponents "demo" ++ ["tests", "test_main.py"]) ∉
        generatedFilePaths (create_project_structure FileSystem.empty "demo" "python-cli" false false false).1 ∧
    writtenContent (create_project_structure FileSystem.empty "demo" "python-cli" false false true).1
        ["demo", "requirements.txt"]
      ≠ writtenContent (create_project_structure FileSystem.empty "demo" "python-cli" false false false).1
        ["demo", "requirements.txt"] := by
  refine ⟨?_, by decide, by decide, by decide, by decide, by decide⟩
  intro pn t d te
  have hsplit : ∀ (L : List (FsPath × String)),
      L.map (fun f => pathComponents pn ++ f.1)
        = (L.map Prod.fst).map (fun q => pathComponents pn ++ q) := by
    intro L
    rw [List.map_map]
    rfl
  rw [generatedFilePaths_empty_fs, generatedFilePaths_empty_fs, hsplit, hsplit,
    runBuilder_paths_ignore_linting]

/-- Claim C9: the react, nextjs and node-api builders never read the docker,
testing or linting flags, so the generated tree and every file content are
identical across all flag combinations, for every filesystem and project
name (cli.py:77, 449, 593). -/
theorem C9_flags_ignored (fs : FileSystem) (pn t : String) (d te l d2 te2 l2 : Bool)
    (ht : t = "react" ∨ t = "nextjs" ∨ t = "node-api") :
    create_project_structure fs pn t d te l = create_project_structure fs pn t d2 te2 l2 := by
  rcases ht with rfl | rfl | rfl <;> rfl

/-- Witness for C9 at the react template: all flags on versus all flags off. -/
theorem C9_witness :
    ("react" = "react" ∨ "react" = "nextjs" ∨ "react" = "node-api") ∧
    create_project_structure FileSystem.empty "demo" "react" true true true
      = create_project_structure FileSystem.empty "demo" "react" false false false :=
  ⟨Or.inl rfl,
   C9_flags_ignored FileSystem.empty "demo" "react" true true true false false false (Or.inl rfl)⟩

/-- Claim C10: a project_name containing path separators is created with all
its missing parents (`mkdir(parents=True)`, cli.py:47), and the value
substituted for the placeholder is `path.name`, the final path component
only — for "a/b" the rendered package.json names "b", not "a/b"
(cli.py:102). -/
theorem C10_nested_path_and_final_name (pn : String) (d te l : Bool) :
    (∀ q ∈ parentsAndSelf (pathComponents pn),
        q ∈ (create_project_structure FileSystem.empty pn "react" d te l).1.dirs) ∧
    writtenContent (create_project_structure FileSystem.empty pn "react" d te l).1
        (pathComponents pn ++ ["package.json"])
      = some (renderTemplate react_package_json (pathName pn)) ∧
    pathName "a/b" = "b" ∧
    containsSub (renderTemplate react_package_json "b") "\"name\": \"b\"" = true ∧
    containsSub (renderTemplate react_package_json "b") "a/b" = false := by
  refine ⟨?_, ?_, by decide, by decide, by decide⟩
  · intro q hq
    simp [create_project_structure, FileSystem.empty, FileSystem.pathExists]
    exact Or.inl hq
  · rw [create_project_structure]
    simp [FileSystem.empty, FileSystem.pathExists, runBuilder_react, create_react_project,
      writtenContent, List.find?]

/-- Witness for C10 at the nested name a/b: the parent directory a and the
project directory a/b both exist after generation. -/
theorem C10_witness :
    (["a"] ∈ parentsAndSelf (pathComponents "a/b")) ∧
    ["a"] ∈ (create_project_structure FileSystem.empty "a/b" "react" false false false).1.dirs ∧
    ["a", "b"] ∈ (create_project_structure FileSystem.empty "a/b" "react" false false false).1.dirs :=
  ⟨by decide,
   (C10_nested_path_and_final_name "a/b" false false false).1 ["a"] (by decide),
   (C10_nested_path_and_final_name "a/b" false false false).1 ["a", "b"] (by decide)⟩
